import Mathlib

/-!
Verification of the Kubernetes-as-a-Service repository (src/APIs/service_1.py,
src/APIs/postgres_api.py, src/APIs/service_3.py) against its natural-language
specification.  The Python code is shallowly embedded: each `create_*` function
becomes a Lean function producing the resource specification it submits, the
route handlers become functions over an explicit outcome environment (one
outcome per platform call), and the status-classification loop of service_3
becomes a recursive function over the pod's container statuses.
-/

namespace KaaS

/-- One entry of the request's `Envs` list: `{Key, Value, IsSecret}`. -/
structure EnvEntry where
  key : String
  value : String
  isSecret : Bool
deriving DecidableEq, Repr

/-- `Resources: {CPU, RAM}` of the `/deploy` request (service_1.py). -/
structure ResourcesReq where
  cpu : String
  ram : String
deriving DecidableEq, Repr

/-- `Resources: {cpu, memory}` of the `/deploy_postgres` request (postgres_api.py). -/
structure PgResources where
  cpu : String
  memory : String
deriving DecidableEq, Repr

/-! ### base64 encoding, as performed by Python's `base64.b64encode` on UTF-8 bytes -/

/-- The standard base64 alphabet. -/
def base64Alphabet : List Char :=
  "ABCDEFGHIJKLMNOPQRSTUVWXYZabcdefghijklmnopqrstuvwxyz0123456789+/".data

/-- Character of the base64 alphabet at index `n` (0 ≤ n < 64). -/
def b64Char (n : Nat) : Char := base64Alphabet.getD n 'A'

/-- UTF-8 byte sequence of a single code point, as Nat values below 256. -/
def utf8Bytes (c : Char) : List Nat :=
  let n := c.toNat
  if n < 0x80 then [n]
  else if n < 0x800 then
    [0xC0 ||| (n >>> 6), 0x80 ||| (n &&& 0x3F)]
  else if n < 0x10000 then
    [0xE0 ||| (n >>> 12), 0x80 ||| ((n >>> 6) &&& 0x3F), 0x80 ||| (n &&& 0x3F)]
  else
    [0xF0 ||| (n >>> 18), 0x80 ||| ((n >>> 12) &&& 0x3F),
     0x80 ||| ((n >>> 6) &&& 0x3F), 0x80 ||| (n &&& 0x3F)]

/-- Base64-encode a byte list, with `=` padding. -/
def b64EncodeBytes : List Nat → List Char
  | [] => []
  | [a] => [b64Char (a >>> 2), b64Char ((a &&& 3) <<< 4), '=', '=']
  | [a, b] => [b64Char (a >>> 2), b64Char (((a &&& 3) <<< 4) ||| (b >>> 4)),
               b64Char ((b &&& 15) <<< 2), '=']
  | a :: b :: c :: rest =>
      b64Char (a >>> 2) :: b64Char (((a &&& 3) <<< 4) ||| (b >>> 4)) ::
      b64Char (((b &&& 15) <<< 2) ||| (c >>> 6)) :: b64Char (c &&& 63) ::
      b64EncodeBytes rest

/-- `base64.b64encode(s.encode('utf-8')).decode('utf-8')`. -/
def b64encodeStr (s : String) : String :=
  String.mk (b64EncodeBytes (s.data.map utf8Bytes).flatten)

/-! ### Resource specifications (the payloads the code hands to the platform client) -/

/-- `V1Secret`: derived name and the `data` key/value pairs, in insertion order. -/
structure SecretSpec where
  name : String
  data : List (String × String)
deriving DecidableEq, Repr

/-- `V1ConfigMap`. -/
structure ConfigMapSpec where
  name : String
  data : List (String × String)
deriving DecidableEq, Repr

/-- An environment variable of a container: literal value or secret key reference. -/
inductive EnvVarValue where
  | value (v : String)
  | secretKeyRef (secretName : String) (key : String)
deriving DecidableEq, Repr

/-- `V1EnvVar`. -/
structure EnvVar where
  name : String
  val : EnvVarValue
deriving DecidableEq, Repr

/-- `V1Container`: name, image, declared ports, environment, resource requests. -/
structure ContainerSpec where
  name : String
  image : String
  ports : List Nat
  env : List EnvVar
  requests : List (String × String)
deriving DecidableEq, Repr

/-- `V1Deployment` (the stateless workload of service_1.py). -/
structure DeploymentSpec where
  name : String
  replicas : Int
  selectorApp : String
  container : ContainerSpec
deriving DecidableEq, Repr

/-- The `V1PersistentVolumeClaim` template of the stateful workload. -/
structure PvcTemplate where
  name : String
  accessModes : List String
  storageRequest : String
deriving DecidableEq, Repr

/-- `V1StatefulSet` (the data-tier workload of postgres_api.py). -/
structure StatefulSetSpec where
  name : String
  serviceName : String
  replicas : Int
  selectorApp : String
  container : ContainerSpec
  volumeName : String
  pvcTemplate : PvcTemplate
deriving DecidableEq, Repr

/-- `V1Service`: `type` is `some "LoadBalancer"` when externally exposed. -/
structure ServiceSpec where
  name : String
  selectorApp : String
  port : Nat
  targetPort : Nat
  type : Option String
deriving DecidableEq, Repr

/-- `V1Ingress`: single host rule routing root path to a backing service. -/
structure IngressSpec where
  name : String
  host : String
  path : String
  backendServiceName : String
  backendServicePort : Nat
deriving DecidableEq, Repr

/-- A resource specification submitted to the platform, tagged by kind. -/
inductive K8sObject where
  | secret (s : SecretSpec)
  | configMap (c : ConfigMapSpec)
  | deployment (d : DeploymentSpec)
  | statefulSet (s : StatefulSetSpec)
  | service (s : ServiceSpec)
  | ingress (i : IngressSpec)
deriving DecidableEq, Repr

/-- Resource kinds, for talking about the submission order. -/
inductive ResourceKind where
  | secret | configMap | deployment | statefulSet | service | ingress
deriving DecidableEq, Repr

/-- The kind of a submitted object. -/
def K8sObject.kind : K8sObject → ResourceKind
  | .secret _ => .secret
  | .configMap _ => .configMap
  | .deployment _ => .deployment
  | .statefulSet _ => .statefulSet
  | .service _ => .service
  | .ingress _ => .ingress

/-- The derived metadata name of a submitted object. -/
def K8sObject.name : K8sObject → String
  | .secret s => s.name
  | .configMap c => c.name
  | .deployment d => d.name
  | .statefulSet s => s.name
  | .service s => s.name
  | .ingress i => i.name

/-- Whether the object is an ingress specification. -/
def K8sObject.isIngress : K8sObject → Bool
  | .ingress _ => true
  | _ => false

/-! ### service_1.py: the `/deploy` flow -/

/-- The `secret_data` dictionary built by service_1's `create_secret`: each
secret-marked entry's key mapped to the base64 encoding of its value. -/
def service1_secretData (envs : List EnvEntry) : List (String × String) :=
  (envs.filter (·.isSecret)).map (fun e => (e.key, b64encodeStr e.value))

/-- service_1's `create_secret`: submits a `{app_name}-secret` secret only when
`secret_data` is non-empty; returns the submitted spec, if any. -/
def service1_create_secret (appName : String) (envs : List EnvEntry) : Option SecretSpec :=
  let sd := service1_secretData envs
  if sd.isEmpty then none
  else some { name := appName ++ "-secret", data := sd }

/-- service_1's `create_deployment`. -/
def service1_create_deployment (appName : String) (replicas : Int)
    (imageAddress imageTag : String) (resources : ResourcesReq)
    (envs : List EnvEntry) (servicePort : Nat) : DeploymentSpec :=
  { name := appName
    replicas := replicas
    selectorApp := appName
    container :=
      { name := appName
        image := imageAddress ++ ":" ++ imageTag
        ports := [servicePort]
        env :=
          (envs.filter (fun e => !e.isSecret)).map (fun e => ⟨e.key, .value e.value⟩) ++
          (envs.filter (·.isSecret)).map
            (fun e => ⟨e.key, .secretKeyRef (appName ++ "-secret") e.key⟩)
        requests := [("cpu", resources.cpu), ("memory", resources.ram)] } }

/-- service_1's `create_service`. -/
def service1_create_service (appName : String) (servicePort : Nat) : ServiceSpec :=
  { name := appName
    selectorApp := appName
    port := servicePort
    targetPort := servicePort
    type := none }

/-- service_1's `create_ingress`. -/
def service1_create_ingress (appName domainAddress : String) (servicePort : Nat) : IngressSpec :=
  { name := appName
    host := domainAddress
    path := "/"
    backendServiceName := appName
    backendServicePort := servicePort }

/-- service_1's `create_k8s_objects`: the ordered sequence of resource
specifications it submits (secret first when present, then deployment,
service, ingress). -/
def create_k8s_objects (appName : String) (replicas : Int)
    (imageAddress imageTag domainAddress : String) (servicePort : Nat)
    (resources : ResourcesReq) (envs : List EnvEntry) : List K8sObject :=
  (match service1_create_secret appName envs with
   | some s => [.secret s]
   | none => []) ++
  [.deployment (service1_create_deployment appName replicas imageAddress imageTag
      resources envs servicePort),
   .service (service1_create_service appName servicePort),
   .ingress (service1_create_ingress appName domainAddress servicePort)]

/-! ### postgres_api.py: the `/deploy_postgres` flow -/

/-- The alphabet `string.ascii_letters + string.digits` used by
`generate_credentials`. -/
def credAlphabet : List Char :=
  "abcdefghijklmnopqrstuvwxyzABCDEFGHIJKLMNOPQRSTUVWXYZ0123456789".data

/-- postgres_api's `generate_credentials`: the random source is modelled as an
oracle giving, for each of the 16 draws, the index of the chosen alphabet
element (`random.choices(alphabet, k=16)`). -/
def generate_credentials (rand : Nat → Nat) : String × String :=
  let password :=
    String.mk ((List.range 16).map (fun i => credAlphabet.getD (rand i % credAlphabet.length) 'a'))
  ("postgres_user", password)

/-- postgres_api's `create_secret`: base64-encoded username and password under
fixed keys, named `{app_name}-secret`. -/
def pg_create_secret (appName username password : String) : SecretSpec :=
  { name := appName ++ "-secret"
    data := [("username", b64encodeStr username), ("password", b64encodeStr password)] }

/-- postgres_api's `create_configmap`, named `{app_name}-config`. -/
def pg_create_configmap (appName : String) (configData : List (String × String)) : ConfigMapSpec :=
  { name := appName ++ "-config", data := configData }

/-- postgres_api's `create_statefulset`: single replica, postgres image, env
referencing the secret, config volume, and a `{app_name}-pvc` claim template. -/
def pg_create_statefulset (appName : String) (resources : PgResources) : StatefulSetSpec :=
  { name := appName
    serviceName := appName
    replicas := 1
    selectorApp := appName
    container :=
      { name := appName
        image := "postgres:latest"
        ports := [5432]
        env :=
          [⟨"POSTGRES_USER", .secretKeyRef (appName ++ "-secret") "username"⟩,
           ⟨"POSTGRES_PASSWORD", .secretKeyRef (appName ++ "-secret") "password"⟩]
        requests := [("cpu", resources.cpu), ("memory", resources.memory)] }
    volumeName := appName ++ "-config"
    pvcTemplate :=
      { name := appName ++ "-pvc"
        accessModes := ["ReadWriteOnce"]
        storageRequest := "1Gi" } }

/-- postgres_api's `create_service`: port 5432; `LoadBalancer` type iff external. -/
def pg_create_service (appName : String) (external : Bool) : ServiceSpec :=
  { name := appName
    selectorApp := appName
    port := 5432
    targetPort := 5432
    type := if external then some "LoadBalancer" else none }

/-- postgres_api's `create_ingress`: host `{app_name}.example.com`, root path,
backing service `{app_name}` on port 5432. -/
def pg_create_ingress (appName : String) : IngressSpec :=
  { name := appName
    host := appName ++ ".example.com"
    path := "/"
    backendServiceName := appName
    backendServicePort := 5432 }

/-- The ordered sequence of resource specifications submitted by
`deploy_postgres`: secret, configmap, statefulset, service, then an ingress
only when `external` is true. -/
def deploy_postgres_objects (appName username password : String)
    (configData : List (String × String)) (resources : PgResources)
    (external : Bool) : List K8sObject :=
  [.secret (pg_create_secret appName username password),
   .configMap (pg_create_configmap appName configData),
   .statefulSet (pg_create_statefulset appName resources),
   .service (pg_create_service appName external)] ++
  (if external then [.ingress (pg_create_ingress appName)] else [])

/-! ### Submission orchestration and HTTP error mapping -/

/-- Failure of one platform submission: an `ApiException` carrying the
platform's status code, or any other Python exception. -/
inductive DeployError where
  | api (status : Nat)
  | other
deriving DecidableEq, Repr

/-- Sequential submission of the ordered specifications: each spec is handed to
the platform (`outcome` says whether that call raises), stopping at the first
failure.  Returns the successfully submitted prefix and the raised error, if
any. -/
def submitAll (outcome : K8sObject → Option DeployError) :
    List K8sObject → List K8sObject × Option DeployError
  | [] => ([], none)
  | o :: rest =>
    match outcome o with
    | some e => ([], some e)
    | none =>
      let r := submitAll outcome rest
      (o :: r.1, r.2)

/-- service_1's `deploy_application` handler: status code and body message as a
function of the error escaping `create_k8s_objects`.  An `ApiException` with
status 409 maps to Conflict, every other failure to 500. -/
def deploy_application_response (err : Option DeployError) : Nat × String :=
  match err with
  | none => (200, "Deployment initiated")
  | some (.api 409) => (409, "Conflict: A resource with the same name already exists.")
  | some (.api _) => (500, "error")
  | some .other => (500, "error")

/-- postgres_api's `deploy_postgres` handler.  `configRead` is the result of
`read_config_file` (`none` when reading or parsing the file raises); on an
`ApiException` the platform's own status code is returned, on any other
exception 500. -/
def deploy_postgres_handler (configRead : Option (List (String × String)))
    (outcome : K8sObject → Option DeployError) (appName username password : String)
    (resources : PgResources) (external : Bool) : Nat × String :=
  match configRead with
  | none => (500, "error")
  | some cd =>
    match (submitAll outcome
        (deploy_postgres_objects appName username password cd resources external)).2 with
    | none => (200, "PostgreSQL deployment initiated")
    | some (.api s) => (s, "error")
    | some .other => (500, "error")

/-! ### service_3.py: the `/status/all` classification -/

/-- A container's waiting state (`state.waiting`), carrying its reason. -/
structure WaitingState where
  reason : String
deriving DecidableEq, Repr

/-- A container's terminated state (`state.terminated`), carrying its reason. -/
structure TerminatedState where
  reason : String
deriving DecidableEq, Repr

/-- `container_status.state`: the waiting and terminated sub-states the code
inspects (`none` models Python `None`). -/
structure ContainerState where
  waiting : Option WaitingState
  terminated : Option TerminatedState
deriving DecidableEq, Repr

/-- One element of `pod.status.container_statuses`. -/
structure ContainerStatus where
  ready : Bool
  state : ContainerState
deriving DecidableEq, Repr

/-- The fields of `pod.status` the classifier reads: the raw phase and the
container-status list, which may be absent (`container_statuses or []`). -/
structure PodStatus where
  phase : String
  containerStatuses : Option (List ContainerStatus)
deriving DecidableEq, Repr

/-- The reasons service_3 looks for in a container's waiting state. -/
def specialReasons : List String :=
  ["CrashLoopBackOff", "ImagePullBackOff", "ErrImagePull", "Pending"]

/-- The waiting-state check of one loop iteration: the container's waiting
reason when it lies in `specialReasons` (this makes the loop `break`). -/
def waitingHit (cs : ContainerStatus) : Option String :=
  match cs.state.waiting with
  | some w => if specialReasons.contains w.reason then some w.reason else none
  | none => none

/-- The terminated-state check of one loop iteration: whether the container is
terminated with reason `"Completed"`. -/
def completedHit (cs : ContainerStatus) : Bool :=
  match cs.state.terminated with
  | some t => t.reason == "Completed"
  | none => false

/-- The second `for container_status in ...` loop of service_3: starting from
`phase`, a waiting reason in `specialReasons` replaces the phase and breaks;
a terminated reason `"Completed"` replaces the phase and the loop continues. -/
def relabelPhase (phase : String) : List ContainerStatus → String
  | [] => phase
  | cs :: rest =>
    match waitingHit cs with
    | some r => r
    | none => relabelPhase (if completedHit cs then "Completed" else phase) rest

/-- The `containers_ready` flag: true unless some container is not ready. -/
def containersReady (p : PodStatus) : Bool :=
  (p.containerStatuses.getD []).all (·.ready)

/-- Whether the pod makes `ready_replicas` increment: raw phase `"Running"` and
all containers ready (checked before the relabelling loop). -/
def countsReady (p : PodStatus) : Bool :=
  p.phase == "Running" && containersReady p

/-- Per-pod result of the classification: the phase written into the pod's
status entry and whether the pod was counted into `ready_replicas`. -/
def classifyPod (p : PodStatus) : String × Bool :=
  (relabelPhase p.phase (p.containerStatuses.getD []), countsReady p)

/-- The `ready_replicas` counter accumulated over a workload's pods. -/
def readyReplicas (pods : List PodStatus) : Nat :=
  pods.foldl (fun acc p => if countsReady p then acc + 1 else acc) 0

/-! ### Concrete instances used in counterexamples and witnesses -/

/-- Outcome environment in which creating any statefulset reports a 409 name
collision and every other submission succeeds. -/
def conflictOutcome409 : K8sObject → Option DeployError :=
  fun o => if o.kind == ResourceKind.statefulSet then some (.api 409) else none

/-- Outcome environment in which every submission succeeds. -/
def okOutcome : K8sObject → Option DeployError := fun _ => none

/-- A pod whose raw phase is Running and whose single container reports ready
while also presenting a CrashLoopBackOff waiting state. -/
def c4Pod : PodStatus :=
  { phase := "Running"
    containerStatuses := some
      [{ ready := true
         state := { waiting := some ⟨"CrashLoopBackOff"⟩, terminated := none } }] }

/-- A Running pod whose single container is ready with no waiting or
terminated state. -/
def c4ReadyPod : PodStatus :=
  { phase := "Running"
    containerStatuses := some
      [{ ready := true
         state := { waiting := none, terminated := none } }] }

/-- A pod outside step 1 whose first container waits with ImagePullBackOff and
whose second container waits with CrashLoopBackOff. -/
def c5Pod : PodStatus :=
  { phase := "Pending"
    containerStatuses := some
      [{ ready := false
         state := { waiting := some ⟨"ImagePullBackOff"⟩, terminated := none } },
       { ready := false
         state := { waiting := some ⟨"CrashLoopBackOff"⟩, terminated := none } }] }

/-- A pod outside step 1 whose only container waits with CrashLoopBackOff. -/
def c5SinglePod : PodStatus :=
  { phase := "Pending"
    containerStatuses := some
      [{ ready := false
         state := { waiting := some ⟨"CrashLoopBackOff"⟩, terminated := none } }] }

/-! ### Helper lemmas -/

/-- When every submission succeeds, all specifications are submitted in order
and no error escapes. -/
theorem submitAll_of_all_ok (outcome : K8sObject → Option DeployError)
    (l : List K8sObject) (h : ∀ o ∈ l, outcome o = none) :
    submitAll outcome l = (l, none) := by
  induction l with
  | nil => rfl
  | cons o rest ih =>
    have ho : outcome o = none := h o (List.mem_cons_self o rest)
    have hrest : ∀ x ∈ rest, outcome x = none :=
      fun x hx => h x (List.mem_cons_of_mem o hx)
    simp [submitAll, ho, ih hrest]

/-- When every submission before `s` succeeds and submitting `s` raises `e`,
exactly the prefix before `s` is submitted and `e` escapes. -/
theorem submitAll_append_fail (outcome : K8sObject → Option DeployError)
    (pre post : List K8sObject) (s : K8sObject) (e : DeployError)
    (hpre : ∀ o ∈ pre, outcome o = none) (hs : outcome s = some e) :
    submitAll outcome (pre ++ s :: post) = (pre, some e) := by
  induction pre with
  | nil => simp [submitAll, hs]
  | cons o rest ih =>
    have ho : outcome o = none := hpre o (List.mem_cons_self o rest)
    have hrest : ∀ x ∈ rest, outcome x = none :=
      fun x hx => hpre x (List.mem_cons_of_mem o hx)
    simp [submitAll, ho, ih hrest]

/-- The `ready_replicas` fold counts exactly the pods passing `countsReady`. -/
theorem readyReplicas_eq_countP (pods : List PodStatus) :
    readyReplicas pods = pods.countP countsReady := by
  suffices h : ∀ acc, pods.foldl (fun acc p => if countsReady p then acc + 1 else acc) acc
      = acc + pods.countP countsReady by
    simpa [readyReplicas] using h 0
  induction pods with
  | nil => simp
  | cons p rest ih =>
    intro acc
    by_cases hp : countsReady p
    · simp [List.countP_cons, hp, ih]
      omega
    · simp [List.countP_cons, hp, ih]

/-- A container list in which no container triggers the waiting-reason break
nor the terminated-Completed relabel leaves the phase unchanged. -/
theorem relabelPhase_of_no_hit (l : List ContainerStatus) (phase : String)
    (h : ∀ cs ∈ l, waitingHit cs = none ∧ completedHit cs = false) :
    relabelPhase phase l = phase := by
  induction l generalizing phase with
  | nil => rfl
  | cons cs rest ih =>
    have h1 := h cs (List.mem_cons_self cs rest)
    have h2 : ∀ x ∈ rest, waitingHit x = none ∧ completedHit x = false :=
      fun x hx => h x (List.mem_cons_of_mem cs hx)
    simp [relabelPhase, h1.1, h1.2, ih _ h2]

/-- The relabelling loop returns the first waiting reason found in
`specialReasons`, whatever phase it started from. -/
theorem relabelPhase_of_findSome (l : List ContainerStatus) (r : String)
    (h : l.findSome? waitingHit = some r) :
    ∀ phase, relabelPhase phase l = r := by
  induction l with
  | nil => simp [List.findSome?] at h
  | cons cs rest ih =>
    intro phase
    cases hcs : waitingHit cs with
    | some x =>
      simp [List.findSome?, hcs] at h
      simp [relabelPhase, hcs, h]
    | none =>
      simp [List.findSome?, hcs] at h
      simp [relabelPhase, hcs, ih h]

/-- Every password character drawn by index lies in the generation alphabet. -/
theorem credAlphabet_getD_contains (m : Nat) :
    credAlphabet.contains (credAlphabet.getD (m % credAlphabet.length) 'a') = true := by
  have h : ∀ k : Fin 62, credAlphabet.contains (credAlphabet.getD k.val 'a') = true := by decide
  have hlen : credAlphabet.length = 62 := by decide
  rw [hlen]
  exact h ⟨m % 62, Nat.mod_lt m (by decide)⟩

/-! ### Claim theorems -/

/-- C1: for every valid deployment request with at least one secret-marked
environment entry, and for every data-tier request (credentials always
generated), the secret specification appears strictly before the workload
specification (deployment, resp. statefulset) in the ordered submission
sequence. -/
theorem C1_secret_before_workload (appName : String) (replicas : Int)
    (imageAddress imageTag domainAddress : String) (servicePort : Nat)
    (resources : ResourcesReq) (envs : List EnvEntry)
    (h : envs.any (·.isSecret) = true)
    (pgName username password : String) (configData : List (String × String))
    (pgRes : PgResources) (external : Bool) :
    (∃ i j : Nat, i < j ∧
      ((create_k8s_objects appName replicas imageAddress imageTag domainAddress
          servicePort resources envs)[i]?).map K8sObject.kind = some ResourceKind.secret ∧
      ((create_k8s_objects appName replicas imageAddress imageTag domainAddress
          servicePort resources envs)[j]?).map K8sObject.kind = some ResourceKind.deployment) ∧
    (∃ i j : Nat, i < j ∧
      ((deploy_postgres_objects pgName username password configData pgRes
          external)[i]?).map K8sObject.kind = some ResourceKind.secret ∧
      ((deploy_postgres_objects pgName username password configData pgRes
          external)[j]?).map K8sObject.kind = some ResourceKind.statefulSet) := by
  have hne : (service1_secretData envs).isEmpty = false := by
    obtain ⟨e, he, hsec⟩ := List.any_eq_true.mp h
    have hmem : (e.key, b64encodeStr e.value) ∈ service1_secretData envs :=
      List.mem_map_of_mem _ (List.mem_filter.mpr ⟨he, hsec⟩)
    cases hval : service1_secretData envs with
    | nil => rw [hval] at hmem; cases hmem
    | cons a l => rfl
  have hsec : service1_create_secret appName envs =
      some { name := appName ++ "-secret", data := service1_secretData envs } := by
    simp [service1_create_secret, hne]
  refine ⟨⟨0, 1, Nat.zero_lt_one, ?_, ?_⟩, ⟨0, 2, by omega, ?_, ?_⟩⟩
  · simp [create_k8s_objects, hsec, K8sObject.kind]
  · simp [create_k8s_objects, hsec, K8sObject.kind]
  · simp [deploy_postgres_objects, K8sObject.kind]
  · simp [deploy_postgres_objects, K8sObject.kind]

/-- C1 witness: a concrete request with one secret-marked entry, and a
concrete data-tier request. -/
theorem C1_witness :
    (([⟨"TOKEN", "abc", true⟩] : List EnvEntry).any (·.isSecret) = true) ∧
    ((∃ i j : Nat, i < j ∧
      ((create_k8s_objects "api1" 2 "repo/img" "v1" "api1.example.com" 8080
          ⟨"100m", "128Mi"⟩ [⟨"TOKEN", "abc", true⟩])[i]?).map K8sObject.kind
            = some ResourceKind.secret ∧
      ((create_k8s_objects "api1" 2 "repo/img" "v1" "api1.example.com" 8080
          ⟨"100m", "128Mi"⟩ [⟨"TOKEN", "abc", true⟩])[j]?).map K8sObject.kind
            = some ResourceKind.deployment) ∧
     (∃ i j : Nat, i < j ∧
      ((deploy_postgres_objects "db" "postgres_user" "pw" [] ⟨"1", "1Gi"⟩ true)[i]?).map
          K8sObject.kind = some ResourceKind.secret ∧
      ((deploy_postgres_objects "db" "postgres_user" "pw" [] ⟨"1", "1Gi"⟩ true)[j]?).map
          K8sObject.kind = some ResourceKind.statefulSet)) :=
  ⟨by decide,
   C1_secret_before_workload "api1" 2 "repo/img" "v1" "api1.example.com" 8080
     ⟨"100m", "128Mi"⟩ [⟨"TOKEN", "abc", true⟩] (by decide)
     "db" "postgres_user" "pw" [] ⟨"1", "1Gi"⟩ true⟩

/-- C2: an internal-exposure data-tier request produces no ingress
specification; an external one produces exactly one ingress, referencing the
network-service by its name and port; the `/deploy` flow (whose requests carry
a domain and are externally exposed) likewise produces exactly one ingress
referencing its network-service by name and port. -/
theorem C2_ingress_iff_external (pgName username password : String)
    (configData : List (String × String)) (pgRes : PgResources)
    (appName : String) (replicas : Int) (imageAddress imageTag domainAddress : String)
    (servicePort : Nat) (resources : ResourcesReq) (envs : List EnvEntry) :
    (deploy_postgres_objects pgName username password configData pgRes false).filter
        K8sObject.isIngress = [] ∧
    ((deploy_postgres_objects pgName username password configData pgRes true).filter
        K8sObject.isIngress = [.ingress (pg_create_ingress pgName)] ∧
      (pg_create_ingress pgName).backendServiceName = (pg_create_service pgName true).name ∧
      (pg_create_ingress pgName).backendServicePort = (pg_create_service pgName true).port) ∧
    ((create_k8s_objects appName replicas imageAddress imageTag domainAddress
        servicePort resources envs).filter K8sObject.isIngress
        = [.ingress (service1_create_ingress appName domainAddress servicePort)] ∧
      (service1_create_ingress appName domainAddress servicePort).backendServiceName
        = (service1_create_service appName servicePort).name ∧
      (service1_create_ingress appName domainAddress servicePort).backendServicePort
        = (service1_create_service appName servicePort).port) := by
  refine ⟨?_, ⟨?_, rfl, rfl⟩, ⟨?_, rfl, rfl⟩⟩
  · simp [deploy_postgres_objects, K8sObject.isIngress]
  · simp [deploy_postgres_objects, K8sObject.isIngress]
  · cases hs : service1_create_secret appName envs with
    | none => simp [create_k8s_objects, hs, K8sObject.isIngress]
    | some s => simp [create_k8s_objects, hs, K8sObject.isIngress]

/-- C3: when the submission of one specification in the ordered sequence
fails, exactly the specifications before it have been submitted (and remain
submitted - no rollback), nothing after it is submitted, and a 409 collision
cause surfaces as the Conflict response. -/
theorem C3_stop_at_first_failure_conflict (outcome : K8sObject → Option DeployError)
    (pre post : List K8sObject) (s : K8sObject)
    (hpre : ∀ o ∈ pre, outcome o = none) (hs : outcome s = some (.api 409)) :
    submitAll outcome (pre ++ s :: post) = (pre, some (.api 409)) ∧
    deploy_application_response (submitAll outcome (pre ++ s :: post)).2
      = (409, "Conflict: A resource with the same name already exists.") := by
  have h := submitAll_append_fail outcome pre post s _ hpre hs
  exact ⟨h, by rw [h]; rfl⟩

/-- C3 witness: the five data-tier specifications with the third (the
statefulset) failing on a 409 collision; exactly the first two are submitted
and the surfaced response is Conflict. -/
theorem C3_witness :
    submitAll conflictOutcome409
        ((deploy_postgres_objects "db" "postgres_user" "pw" [] ⟨"1", "1Gi"⟩ true).take 2 ++
          K8sObject.statefulSet (pg_create_statefulset "db" ⟨"1", "1Gi"⟩) ::
          (deploy_postgres_objects "db" "postgres_user" "pw" [] ⟨"1", "1Gi"⟩ true).drop 3)
      = ((deploy_postgres_objects "db" "postgres_user" "pw" [] ⟨"1", "1Gi"⟩ true).take 2,
         some (DeployError.api 409)) ∧
    deploy_application_response (submitAll conflictOutcome409
        ((deploy_postgres_objects "db" "postgres_user" "pw" [] ⟨"1", "1Gi"⟩ true).take 2 ++
          K8sObject.statefulSet (pg_create_statefulset "db" ⟨"1", "1Gi"⟩) ::
          (deploy_postgres_objects "db" "postgres_user" "pw" [] ⟨"1", "1Gi"⟩ true).drop 3)).2
      = (409, "Conflict: A resource with the same name already exists.") :=
  C3_stop_at_first_failure_conflict conflictOutcome409
    ((deploy_postgres_objects "db" "postgres_user" "pw" [] ⟨"1", "1Gi"⟩ true).take 2)
    ((deploy_postgres_objects "db" "postgres_user" "pw" [] ⟨"1", "1Gi"⟩ true).drop 3)
    (K8sObject.statefulSet (pg_create_statefulset "db" ⟨"1", "1Gi"⟩))
    (by decide) (by decide)

/-- C4 counterexample: a pod whose raw phase is Running and whose single
container reports ready, yet whose classified phase is not "Running": the
container also presents a CrashLoopBackOff waiting state, which the
relabelling loop applies even though the pod was already counted ready. -/
theorem C4_counterexample :
    c4Pod.phase = "Running" ∧ containersReady c4Pod = true ∧
    (classifyPod c4Pod).1 ≠ "Running" ∧ (classifyPod c4Pod).2 = true := by decide

/-- C4 (amended): for every pod whose raw phase is Running and all of whose
containers report ready, the pod is counted ready; its reported phase is
"Running" provided additionally no container presents a waiting reason from
the special set nor a terminated reason "Completed"; and a workload's
ReadyReplicas count equals exactly the number of its pods whose raw phase is
Running with all containers ready (a pod relabelled by steps 2-3 is still
counted whenever it passes that raw check). -/
theorem C4_running_ready_count (p : PodStatus) (pods : List PodStatus)
    (h1 : p.phase = "Running") (h2 : containersReady p = true)
    (h3 : ∀ cs ∈ p.containerStatuses.getD [], waitingHit cs = none ∧ completedHit cs = false) :
    classifyPod p = ("Running", true) ∧
    readyReplicas pods = pods.countP countsReady := by
  refine ⟨?_, readyReplicas_eq_countP pods⟩
  simp [classifyPod, relabelPhase_of_no_hit _ _ h3, countsReady, h1, h2]

/-- C4 witness: a Running pod with one ready, stateless container, counted in
a two-pod workload alongside a pending pod. -/
theorem C4_witness :
    (c4ReadyPod.phase = "Running" ∧ containersReady c4ReadyPod = true) ∧
    (classifyPod c4ReadyPod = ("Running", true) ∧
     readyReplicas [c4ReadyPod, { phase := "Pending", containerStatuses := none }]
       = [c4ReadyPod, { phase := "Pending", containerStatuses := none }].countP countsReady) :=
  ⟨⟨rfl, by decide⟩,
   C4_running_ready_count c4ReadyPod
     [c4ReadyPod, { phase := "Pending", containerStatuses := none }]
     rfl (by decide) (by decide)⟩

/-- C5 counterexample: a pod outside step 1 with a container waiting for
CrashLoopBackOff is not classified "CrashLoopBackOff" when an earlier
container waits with another special reason: the loop takes the first match,
here ImagePullBackOff. -/
theorem C5_counterexample :
    countsReady c5Pod = false ∧
    (c5Pod.containerStatuses.getD []).any
      (fun cs => cs.state.waiting == some ⟨"CrashLoopBackOff"⟩) = true ∧
    (classifyPod c5Pod).1 = "ImagePullBackOff" ∧
    (classifyPod c5Pod).1 ≠ "CrashLoopBackOff" := by decide

/-- C5 (amended): for every pod not counted under step 1, if the first
container whose waiting reason lies in the special set waits with
"CrashLoopBackOff", the classification is ("CrashLoopBackOff", false) -
whatever the other containers' states contribute after that first match. -/
theorem C5_first_special_reason (p : PodStatus)
    (h1 : countsReady p = false)
    (h2 : (p.containerStatuses.getD []).findSome? waitingHit = some "CrashLoopBackOff") :
    classifyPod p = ("CrashLoopBackOff", false) := by
  simp [classifyPod, relabelPhase_of_findSome _ _ h2, h1]

/-- C5 witness: a pending pod whose only container waits with
CrashLoopBackOff. -/
theorem C5_witness :
    (countsReady c5SinglePod = false ∧
     (c5SinglePod.containerStatuses.getD []).findSome? waitingHit
       = some "CrashLoopBackOff") ∧
    classifyPod c5SinglePod = ("CrashLoopBackOff", false) :=
  ⟨⟨by decide, by decide⟩, C5_first_special_reason c5SinglePod (by decide) (by decide)⟩

/-- C6 counterexample: the builders base64-encode secret values themselves;
the emitted payload holds "YWJj", not the logical value "abc", and the
data-tier secret holds the encodings of the generated credentials. -/
theorem C6_counterexample :
    service1_create_secret "app" [⟨"TOKEN", "abc", true⟩]
      = some { name := "app-secret", data := [("TOKEN", "YWJj")] } ∧
    ("YWJj" : String) ≠ "abc" ∧
    (pg_create_secret "db" "postgres_user" "pw").data
      = [("username", "cG9zdGdyZXNfdXNlcg=="), ("password", "cHc=")] ∧
    ("cHc=" : String) ≠ "pw" := by decide

/-- C6 (amended): when a secret specification is emitted, its payload maps
each secret-marked environment key (resp. each credential key) to the base64
encoding of the entry's UTF-8 value; the encoding is performed by the builder
itself. -/
theorem C6_secret_values_base64 (appName : String) (envs : List EnvEntry) (e : EnvEntry)
    (he : e ∈ envs) (hs : e.isSecret = true) (username password : String) :
    (e.key, b64encodeStr e.value) ∈ service1_secretData envs ∧
    (pg_create_secret appName username password).data
      = [("username", b64encodeStr username), ("password", b64encodeStr password)] :=
  ⟨List.mem_map_of_mem _ (List.mem_filter.mpr ⟨he, hs⟩), rfl⟩

/-- C6 witness: the "TOKEN"/"abc" entry of a concrete request lands in the
secret payload base64-encoded. -/
theorem C6_witness :
    ((⟨"TOKEN", "abc", true⟩ : EnvEntry)
        ∈ ([⟨"MODE", "prod", false⟩, ⟨"TOKEN", "abc", true⟩] : List EnvEntry)) ∧
    (("TOKEN", b64encodeStr "abc")
        ∈ service1_secretData [⟨"MODE", "prod", false⟩, ⟨"TOKEN", "abc", true⟩] ∧
     (pg_create_secret "db" "postgres_user" "pw").data
       = [("username", b64encodeStr "postgres_user"), ("password", b64encodeStr "pw")]) :=
  ⟨by decide,
   C6_secret_values_base64 "db" [⟨"MODE", "prod", false⟩, ⟨"TOKEN", "abc", true⟩]
     ⟨"TOKEN", "abc", true⟩ (by decide) rfl "postgres_user" "pw"⟩

/-- C7: for a fixed application name, every derived resource name is
deterministic and the four derived names are pairwise distinct across kinds:
secret = `{name}-secret`, config = `{name}-config`, persistent volume claim =
`{name}-pvc`, and workload, network-service and ingress each `{name}`. -/
theorem C7_naming (n username password : String) (configData : List (String × String))
    (pgRes : PgResources) (external : Bool) (replicas : Int)
    (imageAddress imageTag domainAddress : String) (servicePort : Nat)
    (envs : List EnvEntry) (resources : ResourcesReq) :
    ((pg_create_secret n username password).name = n ++ "-secret" ∧
     (pg_create_configmap n configData).name = n ++ "-config" ∧
     (pg_create_statefulset n pgRes).pvcTemplate.name = n ++ "-pvc" ∧
     (pg_create_statefulset n pgRes).name = n ∧
     (pg_create_service n external).name = n ∧
     (pg_create_ingress n).name = n) ∧
    (((service1_create_secret n envs).getD ⟨n ++ "-secret", []⟩).name = n ++ "-secret" ∧
     (service1_create_deployment n replicas imageAddress imageTag resources envs
        servicePort).name = n ∧
     (service1_create_service n servicePort).name = n ∧
     (service1_create_ingress n domainAddress servicePort).name = n) ∧
    (n ++ "-secret" ≠ n ++ "-config" ∧
     n ++ "-secret" ≠ n ++ "-pvc" ∧
     n ++ "-config" ≠ n ++ "-pvc" ∧
     n ++ "-secret" ≠ n ∧
     n ++ "-config" ≠ n ∧
     n ++ "-pvc" ≠ n) := by
  refine ⟨⟨rfl, rfl, rfl, rfl, rfl, rfl⟩, ⟨?_, rfl, rfl, rfl⟩, ?_, ?_, ?_, ?_, ?_, ?_⟩
  · by_cases h : (service1_secretData envs).isEmpty <;>
      simp [service1_create_secret, h]
  all_goals
    intro h
    have h2 := congrArg String.data h
    simp [String.data_append] at h2

/-- C8: every invocation of the credential generator - whatever the random
draws - returns the fixed identifier "postgres_user" and a secret of exactly
16 characters, each an element of the letters-and-digits alphabet. -/
theorem C8_credentials (rand : Nat → Nat) :
    (generate_credentials rand).1 = "postgres_user" ∧
    (generate_credentials rand).2.length = 16 ∧
    (generate_credentials rand).2.data.all (fun c => credAlphabet.contains c) = true ∧
    credAlphabet.all (fun c => c.isAlpha || c.isDigit) = true := by
  refine ⟨rfl, ?_, ?_, by decide⟩
  · simp [generate_credentials, String.length]
  · show ((List.range 16).map fun i => credAlphabet.getD (rand i % credAlphabet.length) 'a').all
        (fun c => credAlphabet.contains c) = true
    refine List.all_eq_true.mpr ?_
    intro c hc
    obtain ⟨i, _, rfl⟩ := List.mem_map.mp hc
    exact credAlphabet_getD_contains (rand i)

/-- C9: the `/deploy_postgres` handler returns 200 when every submission
succeeds, re-surfaces the platform's own status code when a submission fails
with an ApiException, and returns 500 on any other failure (an unreadable
config file, or a non-platform exception during submission). -/
theorem C9_deploy_postgres_status (configData : List (String × String))
    (outcome : K8sObject → Option DeployError) (appName username password : String)
    (resources : PgResources) (external : Bool) :
    (deploy_postgres_handler none outcome appName username password resources external
        = (500, "error")) ∧
    ((∀ o ∈ deploy_postgres_objects appName username password configData resources external,
        outcome o = none) →
      deploy_postgres_handler (some configData) outcome appName username password
        resources external = (200, "PostgreSQL deployment initiated")) ∧
    (∀ pre s post st,
      deploy_postgres_objects appName username password configData resources external
        = pre ++ s :: post →
      (∀ o ∈ pre, outcome o = none) → outcome s = some (.api st) →
      deploy_postgres_handler (some configData) outcome appName username password
        resources external = (st, "error")) ∧
    (∀ pre s post,
      deploy_postgres_objects appName username password configData resources external
        = pre ++ s :: post →
      (∀ o ∈ pre, outcome o = none) → outcome s = some .other →
      deploy_postgres_handler (some configData) outcome appName username password
        resources external = (500, "error")) := by
  refine ⟨rfl, ?_, ?_, ?_⟩
  · intro hall
    simp [deploy_postgres_handler, submitAll_of_all_ok outcome _ hall]
  · intro pre s post st hdec hpre hs
    simp [deploy_postgres_handler, hdec, submitAll_append_fail outcome pre post s _ hpre hs]
  · intro pre s post hdec hpre hs
    simp [deploy_postgres_handler, hdec, submitAll_append_fail outcome pre post s _ hpre hs]

/-- C9 witness: a concrete data-tier request giving 500 on unreadable config,
200 on an all-successful submission sequence, and the platform's 409 when the
statefulset submission reports a collision. -/
theorem C9_witness :
    deploy_postgres_handler none okOutcome "db" "postgres_user" "pw" ⟨"1", "1Gi"⟩ false
      = (500, "error") ∧
    deploy_postgres_handler (some []) okOutcome "db" "postgres_user" "pw" ⟨"1", "1Gi"⟩ false
      = (200, "PostgreSQL deployment initiated") ∧
    deploy_postgres_handler (some []) conflictOutcome409 "db" "postgres_user" "pw"
      ⟨"1", "1Gi"⟩ false = (409, "error") :=
  ⟨(C9_deploy_postgres_status [] okOutcome "db" "postgres_user" "pw" ⟨"1", "1Gi"⟩ false).1,
   (C9_deploy_postgres_status [] okOutcome "db" "postgres_user" "pw" ⟨"1", "1Gi"⟩
       false).2.1 (fun _ _ => rfl),
   (C9_deploy_postgres_status [] conflictOutcome409 "db" "postgres_user" "pw" ⟨"1", "1Gi"⟩
       false).2.2.1
     ((deploy_postgres_objects "db" "postgres_user" "pw" [] ⟨"1", "1Gi"⟩ false).take 2)
     (K8sObject.statefulSet (pg_create_statefulset "db" ⟨"1", "1Gi"⟩))
     ((deploy_postgres_objects "db" "postgres_user" "pw" [] ⟨"1", "1Gi"⟩ false).drop 3)
     409 (by decide) (by decide) (by decide)⟩

/-- C10: a pod whose raw phase is Running and whose container-status list is
absent or empty is classified ("Running", true) - the all-containers-ready
check is vacuously true - and it is included in the ReadyReplicas count. -/
theorem C10_vacuous_ready (p : PodStatus) (pods : List PodStatus)
    (h1 : p.phase = "Running")
    (h2 : p.containerStatuses = none ∨ p.containerStatuses = some []) :
    classifyPod p = ("Running", true) ∧
    readyReplicas (p :: pods) = readyReplicas pods + 1 := by
  have hst : p.containerStatuses.getD [] = [] := by
    cases h2 with
    | inl h => simp [h]
    | inr h => simp [h]
  have hcount : countsReady p = true := by
    simp [countsReady, containersReady, hst, h1]
  constructor
  · simp [classifyPod, hst, relabelPhase, h1, hcount]
  · rw [readyReplicas_eq_countP, readyReplicas_eq_countP, List.countP_cons]
    simp [hcount]

/-- C10 witness: a Running pod reporting no container statuses at all. -/
theorem C10_witness :
    ((⟨"Running", none⟩ : PodStatus).phase = "Running") ∧
    (classifyPod ⟨"Running", none⟩ = ("Running", true) ∧
     readyReplicas [⟨"Running", none⟩] = readyReplicas [] + 1) :=
  ⟨rfl, C10_vacuous_ready ⟨"Running", none⟩ [] rfl (Or.inl rfl)⟩

end KaaS
